import Mathlib

/-!
Shallow embedding of the bank-product recommendation core:
`src/service/app/core/predictor.py` (feature building, scoring, ranking)
and `src/service/app/core/store.py` (artifact loading and validation).

Feature values and probabilities are modelled as exact rationals; the
`np.log1p` transform is an abstract parameter `log1p : ℚ → ℚ` threaded
through the pipeline; the wall clock (`datetime.now()`) is an explicit
`now : Int × Int` (year, month) input.  Python exceptions are modelled by
`Option`/error values.
-/

namespace BankService

/-- Python `dict.get(key, default)` over an association list. -/
def pyget {β : Type} : List (String × β) → String → β → β
  | [], _, v0 => v0
  | (k, v) :: rest, key, v0 => if key = k then v else pyget rest key v0

/-- Dictionary lookup (first binding wins; the feature dict is kept with the
most recent write at the head, matching Python dict overwrite semantics). -/
def dlook : List (String × ℚ) → String → Option ℚ
  | [], _ => none
  | (k, v) :: rest, key => if key = k then some v else dlook rest key

/-- A fitted sklearn `LabelEncoder`: its vocabulary `classes_`. -/
structure LabelEncoder where
  classes : List String
deriving DecidableEq

/-- Position of a value in the encoder vocabulary: models
`encoder.transform([value])[0]`, with `none` for the `ValueError` raised on
an unknown value. -/
def idxOf : List String → String → Option Nat
  | [], _ => none
  | c :: cs, v => if c = v then some 0 else (idxOf cs v).map (· + 1)

/-- `_safe_label_encode` (predictor.py lines 50-62): try the value, fall back
to the literal `"nan"` when it is in the vocabulary, else 0. -/
def safeLabelEncode (enc : LabelEncoder) (value : String) : Nat :=
  match idxOf enc.classes value with
  | some c => c
  | none =>
    match idxOf enc.classes "nan" with
    | some c => c
    | none => 0

/-- The input entity `ClientFeatures` (schemas.py). -/
structure ClientFeatures where
  age : Option Int
  renta : Option ℚ
  antiguedad : Option Int
  sexo : Option String
  segmento : Option String
  canal_entrada : Option String
  pais_residencia : Option String
  nomprov : Option String
  ind_empleado : Option String
  tiprel_1mes : Option String
  indresi : Option String
  indext : Option String
  indfall : Option String
  indrel_1mes : Option String
  ind_nuevo : Option Int
  indrel : Option Int
  ind_actividad_cliente : Option Int
  cod_prov : Option Int
  prev_products : List (String × Int)
  product_changes : Option Int
  fecha_dato : Option String
  top_k : Nat

/-- The loaded model artifact as the predictor consumes it.  Classifiers are
abstract: `models col X` is the class-probability row
`model.predict_proba(X)[0]`. -/
structure Artifact where
  feature_cols : List String
  product_cols : List String
  models : String → List ℚ → List ℚ
  label_encoders : String → LabelEncoder
  product_names : List (String × String)
  top20_canal : List String
  top20_prov : List String

/-- `DEFAULT_RENTA_BY_SEGMENT` (predictor.py lines 37-41). -/
def DEFAULT_RENTA_BY_SEGMENT : List (String × ℚ) :=
  [("01 - TOP", 234340), ("02 - PARTICULARES", 101340), ("03 - UNIVERSITARIO", 86200)]

def DEFAULT_RENTA : ℚ := 101850

/-- `DEFAULT_RENTA_BY_SEGMENT.get(seg, DEFAULT_RENTA)` where `seg` may be
absent (Python `dict.get(None, d) = d`). -/
def segDefault : Option String → ℚ
  | some seg => ((DEFAULT_RENTA_BY_SEGMENT.lookup seg).getD DEFAULT_RENTA)
  | none => DEFAULT_RENTA

/-- The income value actually fed to `log1p` (predictor.py lines 108-112):
absent or non-positive income is replaced by the segment default. -/
def effectiveRenta (renta : Option ℚ) (segmento : Option String) : ℚ :=
  match renta with
  | some r => if r ≤ 0 then segDefault segmento else r
  | none => segDefault segmento

/-- `max(18, min(100, age))`, default 40 when absent (line 104). -/
def clampAge : Option Int → Int
  | some a => max 18 (min 100 a)
  | none => 40

/-- antiguedad with the `-999999` sentinel and default 70 (lines 115-117). -/
def effectiveAntiguedad : Option Int → Int
  | some a => if a = -999999 then 70 else a
  | none => 70

/-- `str(value) if value is not None else "nan"` (line 157). -/
def strOfOpt : Option String → String
  | some s => s
  | none => "nan"

/-- Channel whitelist-or-OTHER substitution (lines 161-165). -/
def cleanTop20 (raw : Option String) (top20 : List String) : String :=
  match raw with
  | some s => if s ∈ top20 then s else "OTHER"
  | none => "OTHER"

/-- `1 if pais == "ES" else 0` (line 172). -/
def paisEnc : Option String → ℚ
  | some s => if s = "ES" then 1 else 0
  | none => 0

/-- Python truthiness coercion `1 if val else 0` of an ownership flag. -/
def flag01 (v : Int) : Int := if v = 0 then 0 else 1

/-- The previous-products feature block (lines 185-191), most recent write
first.  Keys are `prev_` + product column. -/
def prevFeats (pcols : List String) (prev : List (String × Int)) : List (String × ℚ) :=
  (pcols.map (fun col => ("prev_" ++ col, (flag01 (pyget prev col 0) : ℚ)))).reverse

/-- Accumulated owned-product count of the previous-products loop. -/
def nProducts (pcols : List String) (prev : List (String × Int)) : Int :=
  (pcols.map (fun col => flag01 (pyget prev col 0))).sum

/-- Numeric feature writes (lines 103-140), most recent first. -/
def numFeats (log1p : ℚ → ℚ) (c : ClientFeatures) : List (String × ℚ) :=
  [("cod_prov", ((c.cod_prov.getD 28 : Int) : ℚ)),
   ("ind_actividad_cliente", ((c.ind_actividad_cliente.getD 1 : Int) : ℚ)),
   ("indrel", ((c.indrel.getD 1 : Int) : ℚ)),
   ("ind_nuevo", ((c.ind_nuevo.getD 0 : Int) : ℚ)),
   ("antiguedad", ((effectiveAntiguedad c.antiguedad : Int) : ℚ)),
   ("log_renta", log1p (effectiveRenta c.renta c.segmento)),
   ("age", ((clampAge c.age : Int) : ℚ))]

/-- Categorical feature writes (lines 144-182), most recent first. -/
def catFeats (A : Artifact) (c : ClientFeatures) : List (String × ℚ) :=
  [("nomprov_enc",
      (safeLabelEncode (A.label_encoders "nomprov") (cleanTop20 c.nomprov A.top20_prov) : ℚ)),
   ("pais_residencia_enc", paisEnc c.pais_residencia),
   ("canal_entrada_enc",
      (safeLabelEncode (A.label_encoders "canal_entrada")
        (cleanTop20 c.canal_entrada A.top20_canal) : ℚ)),
   ("indrel_1mes_enc",
      (safeLabelEncode (A.label_encoders "indrel_1mes") (strOfOpt c.indrel_1mes) : ℚ)),
   ("segmento_enc",
      (safeLabelEncode (A.label_encoders "segmento") (strOfOpt c.segmento) : ℚ)),
   ("indfall_enc",
      (safeLabelEncode (A.label_encoders "indfall") (strOfOpt c.indfall) : ℚ)),
   ("indext_enc",
      (safeLabelEncode (A.label_encoders "indext") (strOfOpt c.indext) : ℚ)),
   ("indresi_enc",
      (safeLabelEncode (A.label_encoders "indresi") (strOfOpt c.indresi) : ℚ)),
   ("tiprel_1mes_enc",
      (safeLabelEncode (A.label_encoders "tiprel_1mes") (strOfOpt c.tiprel_1mes) : ℚ)),
   ("ind_empleado_enc",
      (safeLabelEncode (A.label_encoders "ind_empleado") (strOfOpt c.ind_empleado) : ℚ)),
   ("sexo_enc",
      (safeLabelEncode (A.label_encoders "sexo") (strOfOpt c.sexo) : ℚ))]

/-- Aggregate feature writes (lines 194-195), most recent first.
`client_data.product_changes or 0` coincides with `getD 0` on integers. -/
def aggFeats (pcols : List String) (c : ClientFeatures) : List (String × ℚ) :=
  [("product_changes", ((c.product_changes.getD 0 : Int) : ℚ)),
   ("n_products", (nProducts pcols c.prev_products : ℚ))]

/-- Split a character list at every dash. -/
def splitDash : List Char → List (List Char)
  | [] => [[]]
  | c :: cs =>
    match splitDash cs with
    | [] => if c = '-' then [[], []] else [[c]]
    | g :: gs => if c = '-' then [] :: g :: gs else (c :: g) :: gs

/-- Decimal digits to a number; `none` on a non-digit or an empty group. -/
def digitsToNat : List Char → Option Nat
  | [] => none
  | cs => cs.foldl
      (fun acc c =>
        match acc with
        | none => none
        | some n => if c.isDigit then some (n * 10 + (c.toNat - 48)) else none)
      (some 0)

/-- Gregorian leap-year rule, as used by `datetime`. -/
def isLeapYear (y : Nat) : Bool := (y % 4 = 0 && y % 100 != 0) || y % 400 = 0

/-- Length of a month, as validated by the `datetime` constructor. -/
def daysInMonth (y m : Nat) : Nat :=
  if m = 2 then (if isLeapYear y then 29 else 28)
  else if m = 4 ∨ m = 6 ∨ m = 9 ∨ m = 11 then 30
  else 31

/-- `datetime.strptime(s, "%Y-%m-%d")`, reduced to the (year, month) pair the
pipeline consumes; `none` models the `ValueError` on a malformed string.
Faithful to strptime on dash-separated digit groups: the `%Y` field is
exactly 4 digits, `%m` and `%d` are 1-2 digit fields with the month in
[1, 12] (so an over-wide group such as `2020-012-01` is rejected), any
extra, empty or non-digit group is rejected, and the `datetime` constructor
check requires year >= 1 and a calendar-valid day for the month, leap years
included (so `2021-02-29` is rejected). -/
def parseDate (s : String) : Option (Int × Int) :=
  match splitDash s.data with
  | [ys, ms, ds] =>
    match digitsToNat ys, digitsToNat ms, digitsToNat ds with
    | some y, some m, some d =>
      if ys.length = 4 ∧ (ms.length = 1 ∨ ms.length = 2) ∧
          (ds.length = 1 ∨ ds.length = 2) ∧
          1 ≤ y ∧ 1 ≤ m ∧ m ≤ 12 ∧ 1 ≤ d ∧ d ≤ daysInMonth y m then
        some ((y : Int), (m : Int))
      else none
    | _, _, _ => none
  | _ => none

/-- Date used by the temporal features (lines 198-204): the parsed
observation date when present and well-formed, else the current date. -/
def effectiveDate (c : ClientFeatures) (now : Int × Int) : Int × Int :=
  match c.fecha_dato with
  | some s =>
    match parseDate s with
    | some d => d
    | none => now
  | none => now

/-- Temporal feature writes (lines 206-208), most recent first;
`DATASET_START` is 2015-02. -/
def timeFeats (dt : Int × Int) : List (String × ℚ) :=
  [("months_since_start", ((max 0 ((dt.1 - 2015) * 12 + (dt.2 - 2)) : Int) : ℚ)),
   ("month", ((dt.2 : Int) : ℚ))]

/-- The full feature dict at a resolved date, most recent write first. -/
def buildFeaturesAt (log1p : ℚ → ℚ) (A : Artifact) (c : ClientFeatures)
    (dt : Int × Int) : List (String × ℚ) :=
  timeFeats dt ++ aggFeats A.product_cols c ++ prevFeats A.product_cols c.prev_products
    ++ catFeats A c ++ numFeats log1p c

/-- The feature dict of `_preprocess`. -/
def buildFeatures (log1p : ℚ → ℚ) (A : Artifact) (c : ClientFeatures)
    (now : Int × Int) : List (String × ℚ) :=
  buildFeaturesAt log1p A c (effectiveDate c now)

/-- `_preprocess` output row: `{col: features.get(col, 0) for col in feature_cols}`
materialised in `feature_cols` order (lines 210-212). -/
def preprocess (log1p : ℚ → ℚ) (A : Artifact) (c : ClientFeatures)
    (now : Int × Int) : List ℚ :=
  A.feature_cols.map (fun col => (dlook (buildFeatures log1p A c now) col).getD 0)

/-- Positive-class probability selection (line 244):
`prob[1] if len(prob) > 1 else prob[0]`; `none` models the `IndexError`
an empty output would raise. -/
def pickP1 (prob : List ℚ) : Option ℚ :=
  if 1 < prob.length then prob[1]? else prob[0]?

/-- The scoring loop (lines 239-246) over a product-column list: stops with
`none` (the propagated exception) at the first classifier whose output row
yields no probability. -/
def scoreAll (A : Artifact) (X : List ℚ) : List String → Option (List (String × ℚ))
  | [] => some []
  | col :: rest =>
    match pickP1 (A.models col X) with
    | none => none
    | some p =>
      match scoreAll A X rest with
      | none => none
      | some l => some ((col, p) :: l)

/-- Per-product probability map, keyed in `product_cols` order. -/
def rawProbs (A : Artifact) (X : List ℚ) : Option (List (String × ℚ)) :=
  scoreAll A X A.product_cols

/-- Owned-product zeroing (lines 248-252): flag equal to 1 forces the
probability to 0. -/
def zeroOwned (prev : List (String × Int)) (probs : List (String × ℚ)) :
    List (String × ℚ) :=
  probs.map (fun p => if pyget prev p.1 0 = 1 then (p.1, 0) else p)

/-- Stable insertion of one scored product into a descending-sorted list. -/
def insertDesc (x : String × ℚ) : List (String × ℚ) → List (String × ℚ)
  | [] => [x]
  | y :: ys => if y.2 ≤ x.2 then x :: y :: ys else y :: insertDesc x ys

/-- `sorted(probabilities.items(), key=lambda x: x[1], reverse=True)`
(line 255): a stable descending sort by probability. -/
def sortDesc : List (String × ℚ) → List (String × ℚ)
  | [] => []
  | x :: xs => insertDesc x (sortDesc xs)

/-- Python bankers rounding of `q * 10^6` to an integer, computed exactly on
the numerator and denominator: `f` is the floor of `q * 10^6` and `t` compares
twice the fractional remainder against the denominator (that is, the
fractional part against one half). -/
def roundHalfEven6 (q : ℚ) : Int :=
  let x : Int := q.num * 1000000
  let d : Int := (q.den : Int)
  let f : Int := x.fdiv d
  let t : Int := 2 * (x - f * d)
  if t < d then f
  else if d < t then f + 1
  else if f % 2 = 0 then f else f + 1

/-- `round(prob, 6)` (line 265): bankers rounding to 6 decimal digits. -/
def round6 (q : ℚ) : ℚ := mkRat (roundHalfEven6 q) 1000000

/-- One returned recommendation entry. -/
structure Recommendation where
  product_col : String
  product_name : String
  probability : ℚ
deriving DecidableEq

/-- The recommendation-building loop body (lines 258-267) applied to the
truncated sorted list: keep entries with probability strictly above 0,
resolve a display name, round the probability. -/
def mkRecs (A : Artifact) (l : List (String × ℚ)) : List Recommendation :=
  (l.filter (fun p => decide (0 < p.2))).map
    (fun p => ⟨p.1, pyget A.product_names p.1 p.1, round6 p.2⟩)

/-- `n_current` (line 269): count of ownership flags equal to 1 across
`product_cols`. -/
def nCurrent (A : Artifact) (c : ClientFeatures) : Nat :=
  A.product_cols.countP (fun col => pyget c.prev_products col 0 == 1)

/-- `BankPredictor.predict` (lines 216-288), with metric side effects
dropped; `none` models a propagated scoring exception. -/
def predict (log1p : ℚ → ℚ) (A : Artifact) (c : ClientFeatures)
    (now : Int × Int) : Option (List Recommendation × Nat) :=
  let X := preprocess log1p A c now
  match rawProbs A X with
  | none => none
  | some probs =>
    let sorted := sortDesc (zeroOwned c.prev_products probs)
    some (mkRecs A (sorted.take c.top_k), nCurrent A c)

/-! ## Artifact store (store.py) -/

/-- `EXPECTED_KEYS` (store.py lines 15-16). -/
def EXPECTED_KEYS : List String :=
  ["models", "feature_cols", "target_cols", "product_cols",
   "label_encoders", "product_names", "top20_canal", "top20_prov"]

/-- The deserialized artifact dict as the validator inspects it: which top
level keys are present, the keys of the `models` dict, the `product_cols`
list, and the size of the `label_encoders` dict. -/
structure ArtifactBundle where
  present_keys : List String
  models_keys : List String
  product_cols : List String
  n_label_encoders : Nat
deriving DecidableEq

/-- One accumulated validation violation of `ModelStore._validate`. -/
inductive Violation where
  | missingKeys (ks : List String)
  | emptyModels
  | keysMismatch (onlyModels onlyProducts : List String)
  | emptyEncoders
deriving DecidableEq

/-- `EXPECTED_KEYS - set(artifact.keys())`. -/
def missingKeysOf (a : ArtifactBundle) : List String :=
  EXPECTED_KEYS.filter (fun k => !(a.present_keys.contains k))

/-- Set equality of two key lists. -/
def sameSet (l1 l2 : List String) : Bool :=
  l1.all (fun x => l2.contains x) && l2.all (fun x => l1.contains x)

/-- `model_keys - product_set` as a list. -/
def listDiff (l1 l2 : List String) : List String :=
  l1.filter (fun x => !(l2.contains x))

/-- `ModelStore._validate` (store.py lines 62-98): the accumulated error
list, in check order. -/
def validate (a : ArtifactBundle) : List Violation :=
  (if missingKeysOf a ≠ [] then [Violation.missingKeys (missingKeysOf a)] else []) ++
  (if "models" ∈ a.present_keys ∧ a.models_keys.length = 0 then
      [Violation.emptyModels] else []) ++
  (if "models" ∈ a.present_keys ∧ "product_cols" ∈ a.present_keys ∧
       ¬ sameSet a.models_keys a.product_cols = true then
      [Violation.keysMismatch (listDiff a.models_keys a.product_cols)
        (listDiff a.product_cols a.models_keys)] else []) ++
  (if "label_encoders" ∈ a.present_keys ∧ a.n_label_encoders = 0 then
      [Violation.emptyEncoders] else [])

/-- The spec calls the aggregated load failure a `ModelIntegrityError`: it
carries every accumulated violation, joined into one report. -/
def ModelIntegrityError : Type := List Violation

/-- Mutable state of `ModelStore`: `_artifact` and `_loaded`. -/
structure ModelStoreState where
  artifact : Option ArtifactBundle
  loaded : Bool
deriving DecidableEq

/-- Fresh store: `ModelStore.__init__`. -/
def initStore : ModelStoreState := { artifact := none, loaded := false }

/-- `ModelStore.load_model` (store.py lines 31-46): assigns the artifact,
validates, and only then marks the store loaded; a validation failure
returns the full violation list and leaves `_loaded` untouched. -/
def load_model (s : ModelStoreState) (a : ArtifactBundle) :
    ModelStoreState × Option ModelIntegrityError :=
  match validate a with
  | [] => ({ artifact := some a, loaded := true }, none)
  | errs => ({ artifact := some a, loaded := s.loaded }, some errs)

/-- `ModelStore.is_loaded`. -/
def is_loaded (s : ModelStoreState) : Bool := s.loaded

/-! ## Helper lemmas -/

lemma str_data_inj {a b : String} (h : a.data = b.data) : a = b := by
  cases a
  cases b
  exact congrArg String.mk h

lemma prev_append_data (col : String) :
    ("prev_" ++ col).data = 'p' :: 'r' :: 'e' :: 'v' :: '_' :: col.data := by
  rw [String.data_append]
  rfl

lemma prev_append_inj {c1 c2 : String} (h : "prev_" ++ c1 = "prev_" ++ c2) : c1 = c2 := by
  have hd := congrArg String.data h
  rw [prev_append_data, prev_append_data] at hd
  exact str_data_inj (by simpa using hd)

lemma ne_prev_append_of_head {s : String} (col : String)
    (h : s.data.head? ≠ some 'p') : s ≠ "prev_" ++ col := by
  intro he
  apply h
  rw [he, prev_append_data]
  rfl

lemma ne_prev_append_of_two {s : String} (col : String)
    (h : s.data.get? 2 ≠ some 'e') : s ≠ "prev_" ++ col := by
  intro he
  apply h
  rw [he, prev_append_data]
  rfl

lemma dlook_cons_ne {k a : String} {v : ℚ} {rest : List (String × ℚ)} (h : k ≠ a) :
    dlook ((a, v) :: rest) k = dlook rest k := by
  simp [dlook, h]

lemma dlook_cons_eq {k a : String} {v : ℚ} {rest : List (String × ℚ)} (h : k = a) :
    dlook ((a, v) :: rest) k = some v := by
  simp [dlook, h]

lemma dlook_eq_none {l : List (String × ℚ)} {k : String}
    (h : ∀ kv ∈ l, k ≠ kv.1) : dlook l k = none := by
  induction l with
  | nil => rfl
  | cons kv rest ih =>
    obtain ⟨a, v⟩ := kv
    rw [dlook_cons_ne (h (a, v) (List.mem_cons_self _ _))]
    exact ih (fun kv hkv => h kv (List.mem_cons_of_mem _ hkv))

lemma dlook_append_of_none {l1 l2 : List (String × ℚ)} {k : String}
    (h : dlook l1 k = none) : dlook (l1 ++ l2) k = dlook l2 k := by
  induction l1 with
  | nil => rfl
  | cons kv rest ih =>
    obtain ⟨a, v⟩ := kv
    by_cases hk : k = a
    · rw [dlook_cons_eq hk] at h
      cases h
    · rw [List.cons_append, dlook_cons_ne hk]
      rw [dlook_cons_ne hk] at h
      exact ih h

lemma dlook_append_of_some {l1 l2 : List (String × ℚ)} {k : String} {v : ℚ}
    (h : dlook l1 k = some v) : dlook (l1 ++ l2) k = some v := by
  induction l1 with
  | nil => cases h
  | cons kv rest ih =>
    obtain ⟨a, w⟩ := kv
    by_cases hk : k = a
    · rw [dlook_cons_eq hk] at h
      rw [List.cons_append, dlook_cons_eq hk]
      exact h
    · rw [dlook_cons_ne hk] at h
      rw [List.cons_append, dlook_cons_ne hk]
      exact ih h

lemma mem_prevFeats_key {pcols : List String} {prev : List (String × Int)}
    {kv : String × ℚ} (h : kv ∈ prevFeats pcols prev) : ∃ col, kv.1 = "prev_" ++ col := by
  unfold prevFeats at h
  rw [List.mem_reverse] at h
  obtain ⟨col, _, rfl⟩ := List.mem_map.1 h
  exact ⟨col, rfl⟩

lemma dlook_prevFeats_none {pcols : List String} {prev : List (String × Int)} {k : String}
    (h : ∀ col, k ≠ "prev_" ++ col) : dlook (prevFeats pcols prev) k = none :=
  dlook_eq_none (fun kv hkv => by
    obtain ⟨col, hc⟩ := mem_prevFeats_key hkv
    rw [hc]
    exact h col)

lemma dlook_map_prevkey (f : String → ℚ) (l : List String) (col : String) (h : col ∈ l) :
    dlook (l.map (fun c => ("prev_" ++ c, f c))) ("prev_" ++ col) = some (f col) := by
  induction l with
  | nil => cases h
  | cons c cs ih =>
    by_cases hc : col = c
    · subst hc
      exact dlook_cons_eq rfl
    · have hne : "prev_" ++ col ≠ "prev_" ++ c := fun he => hc (prev_append_inj he)
      rw [List.map_cons, dlook_cons_ne hne]
      exact ih ((List.mem_cons.1 h).resolve_left hc)

lemma dlook_prevFeats_mem {pcols : List String} {prev : List (String × Int)} {col : String}
    (h : col ∈ pcols) :
    dlook (prevFeats pcols prev) ("prev_" ++ col)
      = some ((flag01 (pyget prev col 0) : ℚ)) := by
  unfold prevFeats
  rw [← List.map_reverse]
  exact dlook_map_prevkey (fun c => (flag01 (pyget prev c 0) : ℚ)) pcols.reverse col
    (List.mem_reverse.2 h)

lemma idxOf_eq_none_iff (l : List String) (v : String) : idxOf l v = none ↔ v ∉ l := by
  induction l with
  | nil => simp [idxOf]
  | cons c cs ih =>
    by_cases hc : c = v
    · subst hc
      simp [idxOf]
    · simp [idxOf, hc, Option.map_eq_none', ih, Ne.symm hc]

/-! ## C4: safe label encoding -/

/-- C4: for every encoder and input string, safe-encode returns the encoder
code of the string when it is in the vocabulary, else the code of the literal
`"nan"` when that is in the vocabulary, else 0; being a total function it
never raises, for the empty string included. -/
theorem safe_label_encode_spec (enc : LabelEncoder) (value : String) :
    (value ∈ enc.classes →
      some (safeLabelEncode enc value) = idxOf enc.classes value) ∧
    (value ∉ enc.classes → "nan" ∈ enc.classes →
      some (safeLabelEncode enc value) = idxOf enc.classes "nan") ∧
    (value ∉ enc.classes → "nan" ∉ enc.classes → safeLabelEncode enc value = 0) := by
  refine ⟨?_, ?_, ?_⟩
  · intro hv
    unfold safeLabelEncode
    rcases h1 : idxOf enc.classes value with _ | c
    · exact absurd ((idxOf_eq_none_iff _ _).1 h1) (by simpa using hv)
    · rfl
  · intro hv hnan
    unfold safeLabelEncode
    rcases h1 : idxOf enc.classes value with _ | c
    · rcases h2 : idxOf enc.classes "nan" with _ | c2
      · exact absurd ((idxOf_eq_none_iff _ _).1 h2) (by simpa using hnan)
      · rfl
    · exact absurd ((idxOf_eq_none_iff _ _).2 hv) (by simp [h1])
  · intro hv hnan
    unfold safeLabelEncode
    rw [(idxOf_eq_none_iff _ _).2 hv, (idxOf_eq_none_iff _ _).2 hnan]

/-- C4 witness: a concrete unknown value falls back to the `"nan"` code. -/
theorem safe_label_encode_spec_witness :
    ("zzz" ∉ (LabelEncoder.mk ["A", "nan"]).classes) ∧
    some (safeLabelEncode (LabelEncoder.mk ["A", "nan"]) "zzz")
      = idxOf (LabelEncoder.mk ["A", "nan"]).classes "nan" :=
  ⟨by decide,
   (safe_label_encode_spec (LabelEncoder.mk ["A", "nan"]) "zzz").2.1 (by decide) (by decide)⟩

/-! ## C6: income default policy -/

lemma dlook_timeFeats_none {dt : Int × Int} {k : String}
    (h1 : k ≠ "months_since_start") (h2 : k ≠ "month") :
    dlook (timeFeats dt) k = none := by
  unfold timeFeats
  rw [dlook_cons_ne h1, dlook_cons_ne h2]
  rfl

lemma dlook_aggFeats_none {pcols : List String} {c : ClientFeatures} {k : String}
    (h1 : k ≠ "product_changes") (h2 : k ≠ "n_products") :
    dlook (aggFeats pcols c) k = none := by
  unfold aggFeats
  rw [dlook_cons_ne h1, dlook_cons_ne h2]
  rfl

/-- C6: the stored income feature is `log1p` of the effective income, which
is the raw income when present and positive, the fixed per-segment default
(234340 for segment `01 - TOP`) when income is absent or non-positive, and
the global fallback default when the segment is unknown. -/
theorem income_feature_spec (log1p : ℚ → ℚ) (A : Artifact) (c : ClientFeatures)
    (now : Int × Int) :
    (dlook (buildFeatures log1p A c now) "log_renta"
      = some (log1p (effectiveRenta c.renta c.segmento))) ∧
    (c.renta = none → c.segmento = some "01 - TOP" →
      effectiveRenta c.renta c.segmento = 234340) ∧
    (∀ r : ℚ, c.renta = some r → 0 < r → effectiveRenta c.renta c.segmento = r) ∧
    (∀ r : ℚ, c.renta = some r → r ≤ 0 →
      effectiveRenta c.renta c.segmento = segDefault c.segmento) ∧
    (c.renta = none →
      (∀ seg, c.segmento = some seg → DEFAULT_RENTA_BY_SEGMENT.lookup seg = none) →
      effectiveRenta c.renta c.segmento = DEFAULT_RENTA) := by
  refine ⟨?_, ?_, ?_, ?_, ?_⟩
  · unfold buildFeatures buildFeaturesAt
    simp only [List.append_assoc]
    rw [dlook_append_of_none (dlook_timeFeats_none (by decide) (by decide)),
        dlook_append_of_none (dlook_aggFeats_none (by decide) (by decide)),
        dlook_append_of_none
          (dlook_prevFeats_none (fun col => ne_prev_append_of_head col (by decide))),
        dlook_append_of_none ?hcat]
    case hcat =>
      unfold catFeats
      rw [dlook_cons_ne (by decide), dlook_cons_ne (by decide), dlook_cons_ne (by decide),
          dlook_cons_ne (by decide), dlook_cons_ne (by decide), dlook_cons_ne (by decide),
          dlook_cons_ne (by decide), dlook_cons_ne (by decide), dlook_cons_ne (by decide),
          dlook_cons_ne (by decide), dlook_cons_ne (by decide)]
      rfl
    unfold numFeats
    rw [dlook_cons_ne (by decide), dlook_cons_ne (by decide), dlook_cons_ne (by decide),
        dlook_cons_ne (by decide), dlook_cons_ne (by decide), dlook_cons_eq rfl]
  · intro hr hs
    rw [hr, hs]
    rfl
  · intro r hr hpos
    unfold effectiveRenta
    rw [hr]
    exact if_neg (not_le.2 hpos)
  · intro r hr hle
    unfold effectiveRenta
    rw [hr]
    exact if_pos hle
  · intro hr hseg
    unfold effectiveRenta
    rw [hr]
    rcases hs : c.segmento with _ | seg
    · rfl
    · show (DEFAULT_RENTA_BY_SEGMENT.lookup seg).getD DEFAULT_RENTA = DEFAULT_RENTA
      rw [hseg seg hs]
      rfl

/-- C6 witness: absent income with segment `01 - TOP` yields
`log1p 234340`, and a positive concrete income is passed through. -/
theorem income_feature_spec_witness :
    (dlook
        (buildFeatures (fun x => x)
          { feature_cols := ["log_renta"], product_cols := [],
            models := fun _ _ => [], label_encoders := fun _ => ⟨[]⟩,
            product_names := [], top20_canal := [], top20_prov := [] }
          { age := none, renta := none, antiguedad := none, sexo := none,
            segmento := some "01 - TOP", canal_entrada := none, pais_residencia := none,
            nomprov := none, ind_empleado := none, tiprel_1mes := none, indresi := none,
            indext := none, indfall := none, indrel_1mes := none, ind_nuevo := none,
            indrel := none, ind_actividad_cliente := none, cod_prov := none,
            prev_products := [], product_changes := none, fecha_dato := none,
            top_k := 1 }
          (2020, 1)) "log_renta" = some ((fun x => x) 234340)) := by
  have h := income_feature_spec (fun x => x)
    { feature_cols := ["log_renta"], product_cols := [],
      models := fun _ _ => [], label_encoders := fun _ => ⟨[]⟩,
      product_names := [], top20_canal := [], top20_prov := [] }
    { age := none, renta := none, antiguedad := none, sexo := none,
      segmento := some "01 - TOP", canal_entrada := none, pais_residencia := none,
      nomprov := none, ind_empleado := none, tiprel_1mes := none, indresi := none,
      indext := none, indfall := none, indrel_1mes := none, ind_nuevo := none,
      indrel := none, ind_actividad_cliente := none, cod_prov := none,
      prev_products := [], product_changes := none, fecha_dato := none,
      top_k := 1 }
    (2020, 1)
  rw [h.1, h.2.1 rfl rfl]

/-! ## Scoring, zeroing and ranking lemmas -/

lemma scoreAll_map_fst {A : Artifact} {X : List ℚ} :
    ∀ {cols : List String} {probs : List (String × ℚ)},
      scoreAll A X cols = some probs → probs.map Prod.fst = cols := by
  intro cols
  induction cols with
  | nil =>
    intro probs h
    unfold scoreAll at h
    cases h
    rfl
  | cons col rest ih =>
    intro probs h
    unfold scoreAll at h
    split at h
    · cases h
    · split at h
      · cases h
      · cases h
        simp only [List.map_cons]
        rw [ih (by assumption)]

lemma zeroOwned_mem_owned {prev : List (String × Int)} {probs : List (String × ℚ)}
    {col : String} {p : ℚ} (h : (col, p) ∈ zeroOwned prev probs)
    (hf : pyget prev col 0 = 1) : p = 0 := by
  unfold zeroOwned at h
  obtain ⟨⟨c0, p0⟩, _, heq⟩ := List.mem_map.1 h
  by_cases h1 : pyget prev c0 0 = 1
  · rw [if_pos h1] at heq
    cases heq
    rfl
  · rw [if_neg h1] at heq
    cases heq
    exact absurd hf h1

lemma zeroOwned_mem_not_owned {prev : List (String × Int)} {probs : List (String × ℚ)}
    {col : String} {p : ℚ} (hne : pyget prev col 0 ≠ 1) (h : (col, p) ∈ probs) :
    (col, p) ∈ zeroOwned prev probs := by
  unfold zeroOwned
  refine List.mem_map.2 ⟨(col, p), h, ?_⟩
  rw [if_neg hne]

lemma zeroOwned_map_fst (prev : List (String × Int)) (probs : List (String × ℚ)) :
    (zeroOwned prev probs).map Prod.fst = probs.map Prod.fst := by
  unfold zeroOwned
  rw [List.map_map]
  exact List.map_congr_left (fun pr _ => by
    by_cases h1 : pyget prev pr.1 0 = 1
    · simp [h1]
    · simp [h1])

lemma insertDesc_perm (x : String × ℚ) (l : List (String × ℚ)) :
    (insertDesc x l).Perm (x :: l) := by
  induction l with
  | nil => exact List.Perm.refl _
  | cons y ys ih =>
    unfold insertDesc
    by_cases hc : y.2 ≤ x.2
    · rw [if_pos hc]
    · rw [if_neg hc]
      exact (List.Perm.cons y ih).trans (List.Perm.swap x y ys)

lemma sortDesc_perm (l : List (String × ℚ)) : (sortDesc l).Perm l := by
  induction l with
  | nil => exact List.Perm.refl _
  | cons x xs ih => exact (insertDesc_perm x (sortDesc xs)).trans (List.Perm.cons x ih)

lemma insertDesc_pairwise {x : String × ℚ} {l : List (String × ℚ)}
    (h : List.Pairwise (fun a b : String × ℚ => b.2 ≤ a.2) l) :
    List.Pairwise (fun a b : String × ℚ => b.2 ≤ a.2) (insertDesc x l) := by
  induction l with
  | nil => simp [insertDesc]
  | cons y ys ih =>
    rw [List.pairwise_cons] at h
    unfold insertDesc
    by_cases hc : y.2 ≤ x.2
    · rw [if_pos hc]
      refine List.pairwise_cons.2 ⟨?_, List.pairwise_cons.2 h⟩
      intro z hz
      rcases List.mem_cons.1 hz with hz | hz
      · rw [hz]
        exact hc
      · exact le_trans (h.1 z hz) hc
    · rw [if_neg hc]
      refine List.pairwise_cons.2 ⟨?_, ih h.2⟩
      intro z hz
      rcases List.mem_cons.1 ((insertDesc_perm x ys).mem_iff.1 hz) with hz3 | hz3
      · rw [hz3]
        exact le_of_not_le hc
      · exact h.1 z hz3

lemma sortDesc_pairwise (l : List (String × ℚ)) :
    List.Pairwise (fun a b : String × ℚ => b.2 ≤ a.2) (sortDesc l) := by
  induction l with
  | nil => simp [sortDesc]
  | cons x xs ih => exact insertDesc_pairwise ih

lemma predict_some_elim {log1p : ℚ → ℚ} {A : Artifact} {c : ClientFeatures}
    {now : Int × Int} {recs : List Recommendation} {n : Nat}
    (h : predict log1p A c now = some (recs, n)) :
    ∃ probs, rawProbs A (preprocess log1p A c now) = some probs ∧
      recs = mkRecs A ((sortDesc (zeroOwned c.prev_products probs)).take c.top_k) ∧
      n = nCurrent A c := by
  have h' : (match rawProbs A (preprocess log1p A c now) with
      | none => none
      | some probs =>
        some (mkRecs A ((sortDesc (zeroOwned c.prev_products probs)).take c.top_k),
          nCurrent A c)) = some (recs, n) := h
  rcases hraw : rawProbs A (preprocess log1p A c now) with _ | probs
  · rw [hraw] at h'
    cases h'
  · rw [hraw] at h'
    simp only [Option.some.injEq, Prod.mk.injEq] at h'
    exact ⟨probs, rfl, h'.1.symm, h'.2.symm⟩

lemma mem_mkRecs {A : Artifact} {l : List (String × ℚ)} {r : Recommendation}
    (h : r ∈ mkRecs A l) :
    ∃ pr ∈ l, 0 < pr.2 ∧
      r = ⟨pr.1, pyget A.product_names pr.1 pr.1, round6 pr.2⟩ := by
  unfold mkRecs at h
  obtain ⟨pr, hm, rfl⟩ := List.mem_map.1 h
  rw [List.mem_filter] at hm
  exact ⟨pr, hm.1, by simpa using hm.2, rfl⟩

/-! ## C7: feature vector assembly -/

/-- C7: the assembled feature vector has exactly one value per name in
`feature_cols`, in `feature_cols` order (position `i` holds the computed
value for the name at position `i`), and a name the Feature Builder did not
compute yields 0; only `feature_cols` positions appear in the output. -/
theorem feature_vector_assembly (log1p : ℚ → ℚ) (A : Artifact) (c : ClientFeatures)
    (now : Int × Int) :
    (preprocess log1p A c now).length = A.feature_cols.length ∧
    (∀ i : Nat, (preprocess log1p A c now)[i]?
      = (A.feature_cols[i]?).map
          (fun col => (dlook (buildFeatures log1p A c now) col).getD 0)) ∧
    (∀ col ∈ A.feature_cols, (∀ kv ∈ buildFeatures log1p A c now, col ≠ kv.1) →
      (dlook (buildFeatures log1p A c now) col).getD 0 = 0) := by
  refine ⟨List.length_map _ _, ?_, ?_⟩
  · intro i
    unfold preprocess
    exact List.getElem?_map _ _ _
  · intro col _ hnc
    rw [dlook_eq_none hnc]
    rfl

/-- C7 witness: with a concrete artifact whose `feature_cols` contains a
name never computed, that output position holds 0. -/
theorem feature_vector_assembly_witness :
    ("mystery" ∈ (["age", "mystery"] : List String)) ∧
    (dlook
        (buildFeatures (fun x => x)
          { feature_cols := ["age", "mystery"], product_cols := ["p1"],
            models := fun _ _ => [mkRat 1 2, mkRat 1 2],
            label_encoders := fun _ => ⟨["A", "nan"]⟩,
            product_names := [], top20_canal := [], top20_prov := [] }
          { age := some 35, renta := none, antiguedad := none, sexo := none,
            segmento := none, canal_entrada := none, pais_residencia := none,
            nomprov := none, ind_empleado := none, tiprel_1mes := none, indresi := none,
            indext := none, indfall := none, indrel_1mes := none, ind_nuevo := none,
            indrel := none, ind_actividad_cliente := none, cod_prov := none,
            prev_products := [], product_changes := none, fecha_dato := none,
            top_k := 1 }
          (2020, 1)) "mystery").getD 0 = 0 :=
  ⟨by decide,
   (feature_vector_assembly (fun x => x)
      { feature_cols := ["age", "mystery"], product_cols := ["p1"],
        models := fun _ _ => [mkRat 1 2, mkRat 1 2],
        label_encoders := fun _ => ⟨["A", "nan"]⟩,
        product_names := [], top20_canal := [], top20_prov := [] }
      { age := some 35, renta := none, antiguedad := none, sexo := none,
        segmento := none, canal_entrada := none, pais_residencia := none,
        nomprov := none, ind_empleado := none, tiprel_1mes := none, indresi := none,
        indext := none, indfall := none, indrel_1mes := none, ind_nuevo := none,
        indrel := none, ind_actividad_cliente := none, cod_prov := none,
        prev_products := [], product_changes := none, fecha_dato := none,
        top_k := 1 }
      (2020, 1)).2.2 "mystery" (by decide) (by decide)⟩

/-! ## C8: positive-class probability selection -/

/-- C8: scoring takes index 1 of the class-probability output when it has
more than one entry, the single value itself when it has exactly one entry
(without raising), and the resulting probability map is keyed exactly by
`product_cols`. -/
theorem scoring_positive_class (A : Artifact) (X : List ℚ) :
    (∀ prob : List ℚ, 1 < prob.length → pickP1 prob = prob[1]?) ∧
    (∀ a : ℚ, pickP1 [a] = some a) ∧
    (∀ probs, rawProbs A X = some probs → probs.map Prod.fst = A.product_cols) := by
  refine ⟨?_, ?_, ?_⟩
  · intro prob h
    unfold pickP1
    rw [if_pos h]
  · intro a
    rfl
  · intro probs h
    exact scoreAll_map_fst h

/-- C8 witness: concrete two-entry and one-entry classifier outputs, and a
concrete probability map keyed by the product columns. -/
theorem scoring_positive_class_witness :
    (pickP1 [mkRat 1 4, mkRat 3 4] = some (mkRat 3 4)) ∧
    (pickP1 [mkRat 2 5] = some (mkRat 2 5)) ∧
    ([("p1", mkRat 3 4)].map Prod.fst = ["p1"]) := by
  have h := scoring_positive_class
    { feature_cols := [], product_cols := ["p1"],
      models := fun _ _ => [mkRat 1 4, mkRat 3 4],
      label_encoders := fun _ => ⟨["A", "nan"]⟩,
      product_names := [], top20_canal := [], top20_prov := [] } []
  exact ⟨(h.1 [mkRat 1 4, mkRat 3 4] (by decide)).trans (by decide),
         h.2.1 (mkRat 2 5),
         h.2.2 [("p1", mkRat 3 4)] (by decide)⟩

/-! ## C3: owned-product count -/

/-- C3: the returned `n_current_products` is the count of ownership flags
equal to 1 across `product_cols`, and it does not depend on the requested
K (nor on which recommendations survive filtering). -/
theorem n_current_products_spec (log1p : ℚ → ℚ) (A : Artifact) (c : ClientFeatures)
    (now : Int × Int) (recs : List Recommendation) (n : Nat) (k : Nat)
    (recs2 : List Recommendation) (n2 : Nat)
    (h : predict log1p A c now = some (recs, n))
    (h2 : predict log1p A { c with top_k := k } now = some (recs2, n2)) :
    n = A.product_cols.countP (fun col => pyget c.prev_products col 0 == 1) ∧ n2 = n := by
  obtain ⟨_, _, _, hn⟩ := predict_some_elim h
  obtain ⟨_, _, _, hn2⟩ := predict_some_elim h2
  subst hn
  subst hn2
  exact ⟨rfl, rfl⟩

/-! ## Concrete sample inputs used by witnesses -/

/-- A small concrete artifact: two products, fixed classifier outputs. -/
def sampleA : Artifact :=
  { feature_cols := ["age", "month", "log_renta"],
    product_cols := ["p1", "p2"],
    models := fun col _ =>
      if col = "p1" then [mkRat 1 2, mkRat 1 2] else [mkRat 3 4, mkRat 1 4],
    label_encoders := fun _ => ⟨["A", "nan"]⟩,
    product_names := [("p1", "Product One")],
    top20_canal := [], top20_prov := [] }

/-- A small concrete client owning product `p2`, requesting one product. -/
def sampleC : ClientFeatures :=
  { age := some 35, renta := none, antiguedad := none, sexo := none,
    segmento := none, canal_entrada := none, pais_residencia := none,
    nomprov := none, ind_empleado := none, tiprel_1mes := none, indresi := none,
    indext := none, indfall := none, indrel_1mes := none, ind_nuevo := none,
    indrel := none, ind_actividad_cliente := none, cod_prov := none,
    prev_products := [("p2", 1)], product_changes := none,
    fecha_dato := some "2020-05-01", top_k := 1 }

/-- C3 witness: the concrete client owning one of two products gets
`n_current_products = 1`, unchanged when K is changed to 2. -/
theorem n_current_products_spec_witness :
    (1 : Nat) = sampleA.product_cols.countP
      (fun col => pyget sampleC.prev_products col 0 == 1) ∧ (1 : Nat) = 1 :=
  n_current_products_spec (fun x => x) sampleA sampleC (2025, 1)
    [⟨"p1", "Product One", mkRat 1 2⟩] 1 2 [⟨"p1", "Product One", mkRat 1 2⟩] 1
    (by decide) (by decide)

/-! ## C1: owned products are excluded -/

/-- C1: every product whose ownership flag equals 1 has its probability
forced to exactly 0 before ranking, and no such product appears in the
returned recommendation list, whatever the classifier produced. -/
theorem owned_products_never_recommended (log1p : ℚ → ℚ) (A : Artifact)
    (c : ClientFeatures) (now : Int × Int) (recs : List Recommendation) (n : Nat)
    (h : predict log1p A c now = some (recs, n)) :
    (∀ probs, rawProbs A (preprocess log1p A c now) = some probs →
      ∀ col p, (col, p) ∈ zeroOwned c.prev_products probs →
        pyget c.prev_products col 0 = 1 → p = 0) ∧
    (∀ r ∈ recs, pyget c.prev_products r.product_col 0 ≠ 1) := by
  refine ⟨fun probs _ col p hmem hf => zeroOwned_mem_owned hmem hf, ?_⟩
  intro r hr hflag
  obtain ⟨probs, hraw, hrecs, _⟩ := predict_some_elim h
  subst hrecs
  obtain ⟨pr, hpr, hpos, hr_eq⟩ := mem_mkRecs hr
  have hprZ : pr ∈ zeroOwned c.prev_products probs :=
    (sortDesc_perm _).mem_iff.1 (List.take_subset _ _ hpr)
  have hcol : r.product_col = pr.1 := by rw [hr_eq]
  rw [hcol] at hflag
  have hzero : pr.2 = 0 :=
    zeroOwned_mem_owned (by rw [Prod.mk.eta]; exact hprZ) hflag
  rw [hzero] at hpos
  exact lt_irrefl 0 hpos

/-- C1 witness: the concrete client owning `p2` never receives `p2`. -/
theorem owned_products_never_recommended_witness :
    (∀ probs,
      rawProbs sampleA (preprocess (fun x => x) sampleA sampleC (2025, 1)) = some probs →
      ∀ col p, (col, p) ∈ zeroOwned sampleC.prev_products probs →
        pyget sampleC.prev_products col 0 = 1 → p = 0) ∧
    (∀ r ∈ [(⟨"p1", "Product One", mkRat 1 2⟩ : Recommendation)],
      pyget sampleC.prev_products r.product_col 0 ≠ 1) :=
  owned_products_never_recommended (fun x => x) sampleA sampleC (2025, 1)
    [⟨"p1", "Product One", mkRat 1 2⟩] 1 (by decide)

/-! ## Rounding lemmas -/

/-- Bankers rounding expressed with the floor function, for proofs. -/
def rheF (y : ℚ) : Int :=
  if y - ⌊y⌋ < 1/2 then ⌊y⌋
  else if 1/2 < y - ⌊y⌋ then ⌊y⌋ + 1
  else if ⌊y⌋ % 2 = 0 then ⌊y⌋ else ⌊y⌋ + 1

lemma half_lt_iff {t den : ℚ} (hd : 0 < den) : 2 * t * den < den ↔ t < 1/2 := by
  constructor
  · intro h
    by_contra hc
    push_neg at hc
    have hp : 0 ≤ (2 * t - 1) * den := mul_nonneg (by linarith) (le_of_lt hd)
    have hp2 : (2 * t - 1) * den = 2 * t * den - den := by ring
    rw [hp2] at hp
    linarith
  · intro h
    have hp : 0 < (1 - 2 * t) * den := mul_pos (by linarith) hd
    have hp2 : (1 - 2 * t) * den = den - 2 * t * den := by ring
    rw [hp2] at hp
    linarith

lemma lt_half_iff {t den : ℚ} (hd : 0 < den) : den < 2 * t * den ↔ 1/2 < t := by
  constructor
  · intro h
    by_contra hc
    push_neg at hc
    have hp : 0 ≤ (1 - 2 * t) * den := mul_nonneg (by linarith) (le_of_lt hd)
    have hp2 : (1 - 2 * t) * den = den - 2 * t * den := by ring
    rw [hp2] at hp
    linarith
  · intro h
    have hp : 0 < (2 * t - 1) * den := mul_pos (by linarith) hd
    have hp2 : (2 * t - 1) * den = 2 * t * den - den := by ring
    rw [hp2] at hp
    linarith

lemma roundHalfEven6_eq_rheF (q : ℚ) : roundHalfEven6 q = rheF (q * 1000000) := by
  have hd0 : (0 : ℚ) < (q.den : ℚ) := by exact_mod_cast q.den_pos
  have hnum : (q.num : ℚ) = q * (q.den : ℚ) := by
    have h := Rat.num_div_den q
    rw [div_eq_iff (ne_of_gt hd0)] at h
    exact h
  have hxq : ((q.num * 1000000 : Int) : ℚ) = q * 1000000 * (q.den : ℚ) := by
    push_cast
    rw [hnum]
    ring
  have hfl : (q.num * 1000000) / (q.den : Int) = ⌊q * 1000000⌋ := by
    rw [← Rat.floor_intCast_div_natCast (q.num * 1000000) q.den]
    congr 1
    rw [hxq]
    field_simp
  have hfd : (q.num * 1000000).fdiv (q.den : Int) = ⌊q * 1000000⌋ := by
    rw [Int.fdiv_eq_ediv _ (Int.natCast_nonneg q.den)]
    exact hfl
  have hcast : ((2 * (q.num * 1000000 - ⌊q * 1000000⌋ * (q.den : Int)) : Int) : ℚ)
      = 2 * (q * 1000000 - (⌊q * 1000000⌋ : ℚ)) * (q.den : ℚ) := by
    push_cast
    rw [hnum]
    ring
  have hcond1 : (2 * (q.num * 1000000 - ⌊q * 1000000⌋ * (q.den : Int)) < (q.den : Int))
      ↔ (q * 1000000 - (⌊q * 1000000⌋ : ℚ) < 1/2) := by
    rw [← @half_lt_iff (q * 1000000 - (⌊q * 1000000⌋ : ℚ)) ((q.den : ℚ)) hd0]
    constructor
    · intro h
      rw [← hcast]
      exact_mod_cast h
    · intro h
      have h2 : ((2 * (q.num * 1000000 - ⌊q * 1000000⌋ * (q.den : Int)) : Int) : ℚ)
          < (((q.den : Int)) : ℚ) := by
        rw [hcast]
        push_cast
        exact h
      exact_mod_cast h2
  have hcond2 : ((q.den : Int) < 2 * (q.num * 1000000 - ⌊q * 1000000⌋ * (q.den : Int)))
      ↔ (1/2 < q * 1000000 - (⌊q * 1000000⌋ : ℚ)) := by
    rw [← @lt_half_iff (q * 1000000 - (⌊q * 1000000⌋ : ℚ)) ((q.den : ℚ)) hd0]
    constructor
    · intro h
      rw [← hcast]
      exact_mod_cast h
    · intro h
      have h2 : (((q.den : Int)) : ℚ)
          < ((2 * (q.num * 1000000 - ⌊q * 1000000⌋ * (q.den : Int)) : Int) : ℚ) := by
        rw [hcast]
        push_cast
        exact h
      exact_mod_cast h2
  simp only [roundHalfEven6, rheF, hfd]
  simp only [hcond1, hcond2]

lemma rheF_floor_le (y : ℚ) : ⌊y⌋ ≤ rheF y := by
  unfold rheF
  split_ifs <;> omega

lemma rheF_le_floor_add_one (y : ℚ) : rheF y ≤ ⌊y⌋ + 1 := by
  unfold rheF
  split_ifs <;> omega

lemma rheF_mono {a b : ℚ} (h : a ≤ b) : rheF a ≤ rheF b := by
  have hf : ⌊a⌋ ≤ ⌊b⌋ := Int.floor_mono h
  rcases lt_or_eq_of_le hf with hlt | heq
  · calc rheF a ≤ ⌊a⌋ + 1 := rheF_le_floor_add_one a
      _ ≤ ⌊b⌋ := by omega
      _ ≤ rheF b := rheF_floor_le b
  · have hfr : a - (⌊a⌋ : ℚ) ≤ b - (⌊a⌋ : ℚ) := sub_le_sub_right h _
    unfold rheF
    rw [← heq]
    split_ifs <;> first | omega | linarith

lemma rheF_nonneg {y : ℚ} (h : 0 ≤ y) : 0 ≤ rheF y :=
  le_trans (Int.floor_nonneg.mpr h) (rheF_floor_le y)

lemma round6_mono {a b : ℚ} (h : a ≤ b) : round6 a ≤ round6 b := by
  unfold round6
  rw [Rat.mkRat_eq_div, Rat.mkRat_eq_div]
  rw [div_le_div_iff_of_pos_right (by norm_num : (0 : ℚ) < ((1000000 : ℕ) : ℚ))]
  rw [Int.cast_le, roundHalfEven6_eq_rheF, roundHalfEven6_eq_rheF]
  exact rheF_mono (mul_le_mul_of_nonneg_right h (by norm_num))

lemma round6_nonneg {q : ℚ} (h : 0 ≤ q) : 0 ≤ round6 q := by
  unfold round6
  rw [Rat.mkRat_eq_div]
  apply div_nonneg
  · rw [roundHalfEven6_eq_rheF]
    exact_mod_cast rheF_nonneg (mul_nonneg h (by norm_num))
  · norm_num

/-! ## C2: list bounds, ordering, positivity (corrected) -/

/-- C2 (amended): for K in [1, N] the returned list has length at most K and
at most N minus the owned count, its probabilities are non-increasing, and
every returned probability is nonnegative.  (The pre-rounding probability of
every entry is strictly positive, but the 6-digit rounding of the output can
produce exactly 0, so strict positivity of the returned value fails; see the
counterexample.) -/
theorem topk_list_bounds (log1p : ℚ → ℚ) (A : Artifact) (c : ClientFeatures)
    (now : Int × Int) (recs : List Recommendation) (n : Nat)
    (_hK1 : 1 ≤ c.top_k) (_hKN : c.top_k ≤ A.product_cols.length)
    (h : predict log1p A c now = some (recs, n)) :
    recs.length ≤ c.top_k ∧
    recs.length ≤ A.product_cols.length - n ∧
    List.Pairwise (fun a b : Recommendation => b.probability ≤ a.probability) recs ∧
    (∀ r ∈ recs, 0 ≤ r.probability) := by
  obtain ⟨probs, hraw, hrecs, hn⟩ := predict_some_elim h
  have hkeys : probs.map Prod.fst = A.product_cols := scoreAll_map_fst hraw
  subst hrecs
  subst hn
  refine ⟨?_, ?_, ?_, ?_⟩
  · unfold mkRecs
    rw [List.length_map]
    calc ((sortDesc (zeroOwned c.prev_products probs)).take c.top_k
          |>.filter fun p => decide (0 < p.2)).length
        ≤ ((sortDesc (zeroOwned c.prev_products probs)).take c.top_k).length :=
          List.length_filter_le _ _
      _ ≤ c.top_k := by rw [List.length_take]; exact min_le_left _ _
  · unfold mkRecs
    rw [List.length_map]
    rw [← List.countP_eq_length_filter]
    have h2 : ((sortDesc (zeroOwned c.prev_products probs)).take c.top_k).countP
          (fun p => decide (0 < p.2))
        ≤ (sortDesc (zeroOwned c.prev_products probs)).countP
          (fun p => decide (0 < p.2)) :=
      List.Sublist.countP_le _ (List.take_sublist _ _)
    have h3 : (sortDesc (zeroOwned c.prev_products probs)).countP
          (fun p => decide (0 < p.2))
        = (zeroOwned c.prev_products probs).countP (fun p => decide (0 < p.2)) :=
      List.Perm.countP_eq _ (sortDesc_perm _)
    have h4 : (zeroOwned c.prev_products probs).countP (fun p => decide (0 < p.2))
        ≤ (zeroOwned c.prev_products probs).countP
          (fun p => !(pyget c.prev_products p.1 0 == 1)) := by
      apply List.countP_mono_left
      intro pr hpr hpos
      rw [Bool.not_eq_true']
      rw [beq_eq_false_iff_ne]
      intro heq
      have hzero : pr.2 = 0 :=
        zeroOwned_mem_owned (by rw [Prod.mk.eta]; exact hpr) heq
      simp only [decide_eq_true_eq] at hpos
      rw [hzero] at hpos
      exact lt_irrefl 0 hpos
    have h5 : (zeroOwned c.prev_products probs).countP
          (fun p => !(pyget c.prev_products p.1 0 == 1))
        = A.product_cols.countP (fun col => !(pyget c.prev_products col 0 == 1)) := by
      have hzf : (zeroOwned c.prev_products probs).map Prod.fst = A.product_cols := by
        rw [zeroOwned_map_fst, hkeys]
      rw [← hzf, List.countP_map]
      rfl
    have h6 : A.product_cols.countP (fun col => !(pyget c.prev_products col 0 == 1))
        = A.product_cols.length - nCurrent A c := by
      have hlen := List.length_eq_countP_add_countP
        (fun col => pyget c.prev_products col 0 == 1) A.product_cols
      have hco : A.product_cols.countP (fun col => !(pyget c.prev_products col 0 == 1))
          = A.product_cols.countP
            (fun col => decide ¬((pyget c.prev_products col 0 == 1) = true)) := by
        apply List.countP_congr
        intro col _
        cases hb : (pyget c.prev_products col 0 == 1) <;> simp [hb]
      unfold nCurrent
      rw [hco]
      omega
    omega
  · have hsub : (((sortDesc (zeroOwned c.prev_products probs)).take c.top_k).filter
          fun p => decide (0 < p.2)).Sublist
        (sortDesc (zeroOwned c.prev_products probs)) :=
      (List.filter_sublist _).trans (List.take_sublist _ _)
    have hp := (sortDesc_pairwise (zeroOwned c.prev_products probs)).sublist hsub
    unfold mkRecs
    rw [List.pairwise_map]
    exact hp.imp (fun hab => round6_mono hab)
  · intro r hr
    obtain ⟨pr, _, hpos, hre⟩ := mem_mkRecs hr
    rw [hre]
    exact round6_nonneg (le_of_lt hpos)

/-- C2 witness: the concrete client gets one recommendation; all four bounds
hold at K = 1, N = 2, one owned product. -/
theorem topk_list_bounds_witness :
    ([(⟨"p1", "Product One", mkRat 1 2⟩ : Recommendation)].length ≤ sampleC.top_k) ∧
    ([(⟨"p1", "Product One", mkRat 1 2⟩ : Recommendation)].length
      ≤ sampleA.product_cols.length - 1) ∧
    List.Pairwise (fun a b : Recommendation => b.probability ≤ a.probability)
      [(⟨"p1", "Product One", mkRat 1 2⟩ : Recommendation)] ∧
    (∀ r ∈ [(⟨"p1", "Product One", mkRat 1 2⟩ : Recommendation)], 0 ≤ r.probability) :=
  topk_list_bounds (fun x => x) sampleA sampleC (2025, 1)
    [⟨"p1", "Product One", mkRat 1 2⟩] 1 (by decide) (by decide) (by decide)

/-- Counterexample artifact for C2: one product whose positive-class
probability is one ten-millionth. -/
def cex2A : Artifact :=
  { feature_cols := [], product_cols := ["pA"],
    models := fun _ _ => [mkRat 9999999 10000000, mkRat 1 10000000],
    label_encoders := fun _ => ⟨[]⟩,
    product_names := [], top20_canal := [], top20_prov := [] }

/-- Counterexample client for C2: owns nothing, K = 1. -/
def cex2C : ClientFeatures :=
  { age := none, renta := none, antiguedad := none, sexo := none,
    segmento := none, canal_entrada := none, pais_residencia := none,
    nomprov := none, ind_empleado := none, tiprel_1mes := none, indresi := none,
    indext := none, indfall := none, indrel_1mes := none, ind_nuevo := none,
    indrel := none, ind_actividad_cliente := none, cod_prov := none,
    prev_products := [], product_changes := none, fecha_dato := none,
    top_k := 1 }

/-- C2 counterexample: a surviving probability of 1/10^7 (strictly positive
before rounding) is returned as exactly 0 after 6-digit rounding, violating
the claimed strict positivity of returned probabilities (K = 1 is in [1, N]). -/
theorem topk_positive_probability_cex :
    predict (fun x => x) cex2A cex2C (2020, 1) = some ([⟨"pA", "pA", 0⟩], 0) ∧
    ¬ (∀ r ∈ [(⟨"pA", "pA", 0⟩ : Recommendation)], 0 < r.probability) := by
  constructor
  · decide
  · decide

/-! ## C9: determinism (corrected: the current date is an input) -/

/-- C9 (amended): prediction is a pure function of the client record, the
artifact and the current date; whenever the observation date is present and
well-formed, the output does not depend on the current date at all, so two
runs at different wall-clock times agree.  (With an absent or malformed
observation date the pipeline reads the wall clock, and two runs can
differ; see the counterexample.) -/
theorem predict_date_determinism (log1p : ℚ → ℚ) (A : Artifact) (c : ClientFeatures)
    (s : String) (now1 now2 : Int × Int)
    (hs : c.fecha_dato = some s) (hp : (parseDate s).isSome) :
    predict log1p A c now1 = predict log1p A c now2 := by
  obtain ⟨d, hd⟩ := Option.isSome_iff_exists.1 hp
  have he : ∀ now : Int × Int, effectiveDate c now = d := by
    intro now
    unfold effectiveDate
    rw [hs]
    show (match parseDate s with | some d0 => d0 | none => now) = d
    rw [hd]
  have hb : buildFeatures log1p A c now1 = buildFeatures log1p A c now2 := by
    unfold buildFeatures
    rw [he now1, he now2]
  unfold predict preprocess
  rw [hb]

/-- C9 witness: the concrete client carries the well-formed date
`2020-05-01`, so two runs at different current dates coincide. -/
theorem predict_date_determinism_witness :
    predict (fun x => x) sampleA sampleC (2025, 1)
      = predict (fun x => x) sampleA sampleC (1999, 12) :=
  predict_date_determinism (fun x => x) sampleA sampleC "2020-05-01"
    (2025, 1) (1999, 12) rfl (by decide)

/-- Counterexample artifact for C9: the classifier output depends on the
`month` feature. -/
def cex9A : Artifact :=
  { feature_cols := ["month"], product_cols := ["pA"],
    models := fun _ X => if X = [1] then [mkRat 1 2, mkRat 1 2] else [mkRat 3 4, mkRat 1 4],
    label_encoders := fun _ => ⟨[]⟩,
    product_names := [], top20_canal := [], top20_prov := [] }

/-- Counterexample client for C9: no observation date, so the pipeline
falls back to the wall clock. -/
def cex9C : ClientFeatures :=
  { age := none, renta := none, antiguedad := none, sexo := none,
    segmento := none, canal_entrada := none, pais_residencia := none,
    nomprov := none, ind_empleado := none, tiprel_1mes := none, indresi := none,
    indext := none, indfall := none, indrel_1mes := none, ind_nuevo := none,
    indrel := none, ind_actividad_cliente := none, cod_prov := none,
    prev_products := [], product_changes := none, fecha_dato := none,
    top_k := 1 }

/-- C9 counterexample: with the observation date absent, two runs of predict
on the identical client record and artifact, executed at different current
dates (`datetime.now()`), return different outputs — predict is not a pure
function of the client record and artifact alone. -/
theorem predict_now_dependence_cex :
    predict (fun x => x) cex9A cex9C (2020, 1)
      ≠ predict (fun x => x) cex9A cex9C (2020, 2) := by
  decide

/-! ## C10: non-binary ownership flags -/

lemma nProducts_append (l1 l2 : List String) (prev : List (String × Int)) :
    nProducts (l1 ++ l2) prev = nProducts l1 prev + nProducts l2 prev := by
  unfold nProducts
  rw [List.map_append, List.sum_append]

lemma nProducts_cons (c : String) (cs : List String) (prev : List (String × Int)) :
    nProducts (c :: cs) prev = flag01 (pyget prev c 0) + nProducts cs prev := by
  unfold nProducts
  rw [List.map_cons, List.sum_cons]

/-- C10: a product with ownership flag 2 is treated as owned by the feature
block (its previous-ownership feature is 1 and it adds 1 to the `n_products`
sum), yet its probability is not zeroed before ranking (so it can still be
recommended), and it does not count towards the returned
`n_current_products`, because exclusion and the owned count test equality
with 1 while the feature block tests truthiness. -/
theorem nonbinary_flag_semantics (log1p : ℚ → ℚ) (A : Artifact) (c : ClientFeatures)
    (now : Int × Int) (col : String) (recs : List Recommendation) (n : Nat)
    (hmem : col ∈ A.product_cols) (hflag : pyget c.prev_products col 0 = 2)
    (h : predict log1p A c now = some (recs, n)) :
    (dlook (buildFeatures log1p A c now) ("prev_" ++ col) = some 1) ∧
    (∀ l1 l2, A.product_cols = l1 ++ col :: l2 →
      nProducts A.product_cols c.prev_products
        = nProducts l1 c.prev_products + 1 + nProducts l2 c.prev_products) ∧
    (∀ probs p, rawProbs A (preprocess log1p A c now) = some probs →
      (col, p) ∈ probs → (col, p) ∈ zeroOwned c.prev_products probs) ∧
    (n = A.product_cols.countP (fun c2 => pyget c.prev_products c2 0 == 1) ∧
      (pyget c.prev_products col 0 == 1) = false) := by
  refine ⟨?_, ?_, ?_, ?_, ?_⟩
  · unfold buildFeatures buildFeaturesAt
    simp only [List.append_assoc]
    rw [dlook_append_of_none
          (dlook_timeFeats_none
            (Ne.symm (ne_prev_append_of_head col (by decide)))
            (Ne.symm (ne_prev_append_of_head col (by decide)))),
        dlook_append_of_none
          (dlook_aggFeats_none
            (Ne.symm (ne_prev_append_of_two col (by decide)))
            (Ne.symm (ne_prev_append_of_head col (by decide)))),
        dlook_append_of_some (dlook_prevFeats_mem hmem)]
    rw [hflag]
    rfl
  · intro l1 l2 hdec
    rw [hdec, nProducts_append, nProducts_cons, hflag]
    have h1 : flag01 2 = 1 := rfl
    rw [h1]
    omega
  · intro probs p _ hmem2
    exact zeroOwned_mem_not_owned (by rw [hflag]; decide) hmem2
  · obtain ⟨_, _, _, hn⟩ := predict_some_elim h
    subst hn
    rfl
  · rw [hflag]
    rfl

/-- Witness artifact for C10: two products, no encoders needed. -/
def flag2A : Artifact :=
  { feature_cols := [], product_cols := ["p1", "p2"],
    models := fun col _ =>
      if col = "p1" then [mkRat 1 2, mkRat 1 2] else [mkRat 3 4, mkRat 1 4],
    label_encoders := fun _ => ⟨[]⟩,
    product_names := [], top20_canal := [], top20_prov := [] }

/-- Witness client for C10: holds product `p1` with the non-binary flag 2. -/
def flag2C : ClientFeatures :=
  { age := none, renta := none, antiguedad := none, sexo := none,
    segmento := none, canal_entrada := none, pais_residencia := none,
    nomprov := none, ind_empleado := none, tiprel_1mes := none, indresi := none,
    indext := none, indfall := none, indrel_1mes := none, ind_nuevo := none,
    indrel := none, ind_actividad_cliente := none, cod_prov := none,
    prev_products := [("p1", 2)], product_changes := none, fecha_dato := none,
    top_k := 2 }

/-- C10 witness: with flag 2 on `p1`, its previous-ownership feature is 1,
it increments `n_products`, it survives zeroing — and it is actually
returned as the top recommendation while `n_current_products` is 0. -/
theorem nonbinary_flag_semantics_witness :
    ((dlook (buildFeatures (fun x => x) flag2A flag2C (2020, 1)) ("prev_" ++ "p1")
        = some 1) ∧
     (∀ l1 l2, flag2A.product_cols = l1 ++ "p1" :: l2 →
       nProducts flag2A.product_cols flag2C.prev_products
         = nProducts l1 flag2C.prev_products + 1 + nProducts l2 flag2C.prev_products) ∧
     (∀ probs p,
        rawProbs flag2A (preprocess (fun x => x) flag2A flag2C (2020, 1)) = some probs →
        ("p1", p) ∈ probs → ("p1", p) ∈ zeroOwned flag2C.prev_products probs) ∧
     ((0 : Nat) = flag2A.product_cols.countP
        (fun c2 => pyget flag2C.prev_products c2 0 == 1) ∧
       (pyget flag2C.prev_products "p1" 0 == 1) = false)) ∧
    predict (fun x => x) flag2A flag2C (2020, 1)
      = some ([⟨"p1", "p1", mkRat 1 2⟩, ⟨"p2", "p2", mkRat 1 4⟩], 0) :=
  ⟨nonbinary_flag_semantics (fun x => x) flag2A flag2C (2020, 1) "p1"
      [⟨"p1", "p1", mkRat 1 2⟩, ⟨"p2", "p2", mkRat 1 4⟩] 0
      (by decide) (by decide) (by decide),
   by decide⟩

/-! ## C5: artifact validation accumulates all violations -/

lemma load_model_error {s : ModelStoreState} {a : ArtifactBundle}
    (hne : validate a ≠ []) :
    load_model s a = ({ artifact := some a, loaded := s.loaded }, some (validate a)) := by
  unfold load_model
  rcases hv : validate a with _ | ⟨e, es⟩
  · exact absurd hv hne
  · rfl

/-- C5: when validation finds any violation, loading fails with the full
accumulated violation list (every failed check contributes its violation,
not just the first), and the store remains not loaded. -/
theorem load_model_accumulates_violations (s : ModelStoreState) (a : ArtifactBundle)
    (hne : validate a ≠ []) (hl : s.loaded = false) :
    ((load_model s a).2 = some (validate a)) ∧
    (is_loaded (load_model s a).1 = false) ∧
    (missingKeysOf a ≠ [] → Violation.missingKeys (missingKeysOf a) ∈ validate a) ∧
    ("models" ∈ a.present_keys → a.models_keys.length = 0 →
      Violation.emptyModels ∈ validate a) ∧
    ("models" ∈ a.present_keys → "product_cols" ∈ a.present_keys →
      sameSet a.models_keys a.product_cols = false →
      Violation.keysMismatch (listDiff a.models_keys a.product_cols)
        (listDiff a.product_cols a.models_keys) ∈ validate a) ∧
    ("label_encoders" ∈ a.present_keys → a.n_label_encoders = 0 →
      Violation.emptyEncoders ∈ validate a) := by
  refine ⟨?_, ?_, ?_, ?_, ?_, ?_⟩
  · rw [load_model_error hne]
  · rw [load_model_error hne]
    exact hl
  · intro hm
    unfold validate
    refine List.mem_append.2 (Or.inl (List.mem_append.2 (Or.inl
      (List.mem_append.2 (Or.inl ?_)))))
    rw [if_pos hm]
    exact List.mem_singleton.2 rfl
  · intro h1 h2
    unfold validate
    refine List.mem_append.2 (Or.inl (List.mem_append.2 (Or.inl
      (List.mem_append.2 (Or.inr ?_)))))
    rw [if_pos ⟨h1, h2⟩]
    exact List.mem_singleton.2 rfl
  · intro h1 h2 hss
    unfold validate
    refine List.mem_append.2 (Or.inl (List.mem_append.2 (Or.inr ?_)))
    rw [if_pos ⟨h1, h2, by rw [hss]; exact Bool.false_ne_true⟩]
    exact List.mem_singleton.2 rfl
  · intro h1 h2
    unfold validate
    refine List.mem_append.2 (Or.inr ?_)
    rw [if_pos ⟨h1, h2⟩]
    exact List.mem_singleton.2 rfl

/-- Witness bundle for C5: all keys present, empty models dict, a product
column with no classifier, empty encoders — three violations at once. -/
def cex5B : ArtifactBundle :=
  { present_keys := EXPECTED_KEYS, models_keys := [], product_cols := ["x"],
    n_label_encoders := 0 }

/-- C5 witness: loading the bundle with three simultaneous violations fails
with all of them accumulated, and the fresh store stays unloaded. -/
theorem load_model_accumulates_violations_witness :
    ((load_model initStore cex5B).2 = some (validate cex5B)) ∧
    (is_loaded (load_model initStore cex5B).1 = false) ∧
    (missingKeysOf cex5B ≠ [] →
      Violation.missingKeys (missingKeysOf cex5B) ∈ validate cex5B) ∧
    ("models" ∈ cex5B.present_keys → cex5B.models_keys.length = 0 →
      Violation.emptyModels ∈ validate cex5B) ∧
    ("models" ∈ cex5B.present_keys → "product_cols" ∈ cex5B.present_keys →
      sameSet cex5B.models_keys cex5B.product_cols = false →
      Violation.keysMismatch (listDiff cex5B.models_keys cex5B.product_cols)
        (listDiff cex5B.product_cols cex5B.models_keys) ∈ validate cex5B) ∧
    ("label_encoders" ∈ cex5B.present_keys → cex5B.n_label_encoders = 0 →
      Violation.emptyEncoders ∈ validate cex5B) :=
  load_model_accumulates_violations initStore cex5B (by decide) rfl

end BankService
